import Mathlib

/-!
Verification of the `sync-message-port` synchronization layer.

The embedding below follows the TypeScript sources:
* `AtomicCounter` (src/lib/atomic_counter.ts) and `BigInt64Counter`
  (src/lib/big_int_64_counter.ts): a 16-byte `SharedArrayBuffer` viewed as a
  `BigInt64Array` of two words — word 0 is the counter value, word 1 the
  closed flag.  `Atomics.add` / `Atomics.sub` wrap in signed 64-bit
  arithmetic; `Atomics.compareExchange` returns the old word.
* `SyncMessagePort` (src/unnamed/part_003, the current lib/index.ts):
  `createChannel`, the constructor, `postMessage`,
  `receiveMessageIfAvailable`, `receiveMessage` and `close`.

The underlying `MessagePort` transport is an external collaborator; it is
modelled as a FIFO queue with a non-blocking pull (`receiveMessageOnPort`),
per the spec's collaborator contract (FIFO, at-most-once delivery, queued
messages remain drainable after close).
-/

/-- Signed 64-bit wraparound, as performed by `Atomics.add` and `Atomics.sub`
on a `BigInt64Array`. -/
def wrap64 (n : Int) : Int := (n + 2 ^ 63) % 2 ^ 64 - 2 ^ 63

/-- The two `BigInt64` words of the 16-byte buffer backing a counter:
`value` is word 0 (the current count), `closedWord` is word 1 (0 while open;
`close` compare-exchanges it from 0 to 1). -/
structure CounterState where
  value : Int
  closedWord : Int
deriving Repr, DecidableEq

/-- Result of one `Atomics.wait(buffer, 0, 0n, timeout)` call
(`'ok' | 'not-equal' | 'timed-out'`), supplied by the environment in the
trace-based model of the `wait` loops. -/
inductive PrimWaitResult where
  | ok
  | notEqual
  | timedOut
deriving Repr, DecidableEq

namespace AtomicCounter

/-- `decrement()`: `Atomics.sub(this.buffer, 0, 1n)`. -/
def decrement (s : CounterState) : CounterState :=
  { s with value := wrap64 (s.value - 1) }

/-- `increment()`: `Atomics.add(this.buffer, 0, 1n)` returns the old value;
`Atomics.notify(this.buffer, 0, 1)` (wake at most one waiter) runs exactly
when that old value was `0n`.  The `Bool` records whether the notify ran. -/
def increment (s : CounterState) : CounterState × Bool :=
  ({ s with value := wrap64 (s.value + 1) }, s.value == 0)

/-- `close()`: `Atomics.compareExchange(this.buffer, 1, 0n, 1n) === 0n &&
Atomics.compareExchange(this.buffer, 0, 0n, 1n) === 0n`, with `&&`
short-circuiting, then `Atomics.notify(this.buffer, 0)` when both
compare-exchanges succeeded.  The `Bool` records whether the notify ran. -/
def close (s : CounterState) : CounterState × Bool :=
  if s.closedWord = 0 then
    if s.value = 0 then ({ value := 1, closedWord := 1 }, true)
    else ({ s with closedWord := 1 }, false)
  else (s, false)

/-- `wait(timeout)`: loop while both words load as `0n`; each iteration calls
`Atomics.wait(this.buffer, 0, 0n, timeout)` and returns
`result !== 'timed-out'` when `result !== 'ok'`; on `'ok'` it re-checks the
predicate.  Returns `true` once the loop predicate fails.

The environment trace `env` supplies, for each primitive `Atomics.wait` call,
its result together with the counter state the loads observe at the next
loop head (other threads may have changed the shared words).  `none`
means the call is still blocked when the trace runs out. -/
def wait : CounterState → List (PrimWaitResult × CounterState) → Option Bool
  | s, env =>
    if s.value = 0 ∧ s.closedWord = 0 then
      match env with
      | [] => none
      | (PrimWaitResult.ok, s') :: rest => wait s' rest
      | (PrimWaitResult.notEqual, _) :: _ => some true
      | (PrimWaitResult.timedOut, _) :: _ => some false
    else some true

end AtomicCounter

namespace BigInt64Counter

/-- `decrement()` of `BigInt64Counter`: `Atomics.sub(this.buffer, 0, 1n)`. -/
def decrement (s : CounterState) : CounterState :=
  { s with value := wrap64 (s.value - 1) }

/-- `increment()` of `BigInt64Counter`: identical text to
`AtomicCounter.increment`. -/
def increment (s : CounterState) : CounterState × Bool :=
  ({ s with value := wrap64 (s.value + 1) }, s.value == 0)

/-- `close()` of `BigInt64Counter`: identical text to
`AtomicCounter.close`. -/
def close (s : CounterState) : CounterState × Bool :=
  if s.closedWord = 0 then
    if s.value = 0 then ({ value := 1, closedWord := 1 }, true)
    else ({ s with closedWord := 1 }, false)
  else (s, false)

/-- `wait(timeout)` of `BigInt64Counter`: same loop as
`AtomicCounter.wait`, but the primitive result is returned as-is when it is
not `'ok'`, and `'ok'` is returned once the loop predicate fails. -/
def wait : CounterState → List (PrimWaitResult × CounterState) → Option PrimWaitResult
  | s, env =>
    if s.value = 0 ∧ s.closedWord = 0 then
      match env with
      | [] => none
      | (PrimWaitResult.ok, s') :: rest => wait s' rest
      | (PrimWaitResult.notEqual, _) :: _ => some PrimWaitResult.notEqual
      | (PrimWaitResult.timedOut, _) :: _ => some PrimWaitResult.timedOut
    else some PrimWaitResult.ok

end BigInt64Counter

/-- `wrap64` is the identity on the signed 64-bit range. -/
theorem wrap64_eq_self {n : Int} (h1 : -(2 ^ 63) ≤ n) (h2 : n < 2 ^ 63) :
    wrap64 n = n := by
  unfold wrap64
  omega

/-- Re-wrapping before a further add does not change the wrapped result. -/
theorem wrap64_add_one (n : Int) : wrap64 (wrap64 n + 1) = wrap64 (n + 1) := by
  unfold wrap64
  omega

/-- `ReceiveMessageOptions`: the optional argument of `receiveMessage`.
Each `Option` field records whether the key is present on the object
(`'timeoutValue' in options` / `'closedValue' in options` test presence, so
a present key whose value is the "absent" sentinel is still `some`). -/
structure ReceiveMessageOptions (α : Type) where
  timeout : Option Nat := none
  timeoutValue : Option α := none
  closedValue : Option α := none
deriving Repr, DecidableEq

/-- How a `receiveMessage` call ends, tagged by the return path or thrown
error in the source. -/
inductive ReceiveOutcome (α : Type) where
  /-- A payload was pulled from the port and `message.message` returned. -/
  | message (v : α)
  /-- `return options.timeoutValue` (the wait timed out and the key was
  present). -/
  | timeoutValue (v : α)
  /-- `throw new TimeoutException(...)`. -/
  | timeoutException
  /-- `return options.closedValue` (nothing pulled after a successful wait
  and the key was present). -/
  | closedValue (v : α)
  /-- `throw new Error("The SyncMessagePort's channel is closed.")`. -/
  | closedError
  /-- The `'timeoutValue' in options!` expression evaluated with
  `options === undefined`: a TypeError, not a `TimeoutException`. -/
  | typeError
deriving Repr, DecidableEq

/-- Outcome of `AtomicCounter.wait(timeout)` in the quiescent semantics (no
concurrent writer touches the buffer during the call): if `value ≠ 0` or the
counter is closed the loop predicate fails at once and the call returns
`true`; otherwise with a finite timeout the single `Atomics.wait` times out
(`false`), and with no timeout the call blocks forever (`none`). -/
def waitQuiescent (s : CounterState) (timeout : Option Nat) : Option Bool :=
  if s.value = 0 ∧ s.closedWord = 0 then
    match timeout with
    | some _ => some false
    | none => none
  else some true

/-- The receiving half of a `SyncMessagePort` as `receiveMessage` and
`receiveMessageIfAvailable` see it: the `receiveCounter` words plus the FIFO
queue of payloads the peer has posted on the transport and that
`receiveMessageOnPort` has not yet pulled. -/
structure PortState (α : Type) where
  receiveCounter : CounterState
  queue : List α
deriving Repr, DecidableEq

/-- The `{message: unknown}` wrapper that `receiveMessageOnPort` returns, so
a message whose value is itself `undefined` is distinguishable from no
message. -/
structure WrappedMessage (α : Type) where
  message : α
deriving Repr, DecidableEq

/-- `receiveMessage(options)` (quiescent semantics; `none` = blocked
forever in the wait):
1. `if (!this.receiveCounter.wait(options?.timeout))` — on timeout, return
   `options.timeoutValue` when the key is present, else throw
   `TimeoutException` (with `options === undefined` the `in` test itself
   is a TypeError);
2. otherwise pull `receiveMessageOnPort(this.port)`; if a message is
   present, `this.receiveCounter.decrement()` and return it;
3. otherwise return `options.closedValue` when present, else throw the
   channel-closed `Error`. -/
def receiveMessage {α : Type} (s : PortState α)
    (options : Option (ReceiveMessageOptions α)) :
    Option (ReceiveOutcome α × PortState α) :=
  match waitQuiescent s.receiveCounter (options.bind fun o => o.timeout) with
  | none => none
  | some false =>
    match options with
    | none => some (ReceiveOutcome.typeError, s)
    | some o =>
      match o.timeoutValue with
      | some v => some (ReceiveOutcome.timeoutValue v, s)
      | none => some (ReceiveOutcome.timeoutException, s)
  | some true =>
    match s.queue with
    | m :: rest =>
      some (ReceiveOutcome.message m,
        { receiveCounter := AtomicCounter.decrement s.receiveCounter,
          queue := rest })
    | [] =>
      match options.bind fun o => o.closedValue with
      | some v => some (ReceiveOutcome.closedValue v, s)
      | none => some (ReceiveOutcome.closedError, s)

/-- `receiveMessageIfAvailable()` (quiescent semantics; outer `none` =
blocked forever in the wait): pull `receiveMessageOnPort(this.port)` first;
if a message was pulled, `this.receiveCounter.wait()` (no timeout) then
`this.receiveCounter.decrement()`; return the pulled wrapper, `undefined`
when nothing was queued. -/
def receiveMessageIfAvailable {α : Type} (s : PortState α) :
    Option (Option (WrappedMessage α) × PortState α) :=
  match s.queue with
  | [] => some (none, s)
  | m :: rest =>
    match waitQuiescent s.receiveCounter none with
    | none => none
    | some _ =>
      some (some ⟨m⟩,
        { receiveCounter := AtomicCounter.decrement s.receiveCounter,
          queue := rest })

/-- `postMessage(value)` as seen from the receiving side it feeds:
`this.port.postMessage(value)` enqueues the payload on the peer's transport
queue, then `this.postCounter.increment()` bumps the shared counter (the
peer's `receiveCounter` — same buffer). -/
def postMessage {α : Type} (v : α) (s : PortState α) : PortState α :=
  { receiveCounter := (AtomicCounter.increment s.receiveCounter).1,
    queue := s.queue ++ [v] }

/-- The sender's `close()` as seen from the receiving side: it closes the
transport (already-queued payloads stay drainable, per the transport
contract) and `close()`s its `postCounter`, which is the same buffer as the
peer's `receiveCounter`. -/
def closePort {α : Type} (s : PortState α) : PortState α :=
  { s with receiveCounter := (AtomicCounter.close s.receiveCounter).1 }

/-- Post every payload of `ms` in order. -/
def sendAll {α : Type} (ms : List α) (s : PortState α) : PortState α :=
  ms.foldl (fun s v => postMessage v s) s

/-- The outcome `receiveMessage` takes when the wait succeeded but the
transport was drained: `closedValue` when present, else the channel-closed
error. -/
def closedOutcome {α : Type} (options : Option (ReceiveMessageOptions α)) :
    ReceiveOutcome α :=
  match options.bind fun o => o.closedValue with
  | some v => ReceiveOutcome.closedValue v
  | none => ReceiveOutcome.closedError

/-- Call `receiveMessage` repeatedly (at most `fuel` times), collecting
outcomes until the first outcome that is not a pulled message. -/
def drain {α : Type} (fuel : Nat) (options : Option (ReceiveMessageOptions α))
    (s : PortState α) : List (ReceiveOutcome α) :=
  match fuel with
  | 0 => []
  | fuel + 1 =>
    match receiveMessage s options with
    | none => []
    | some (ReceiveOutcome.message m, s') =>
      ReceiveOutcome.message m :: drain fuel options s'
    | some (out, _) => [out]

/-- The two 16-byte `SharedArrayBuffer`s `createChannel` allocates
(`buffer1`, `buffer2` in the source). -/
inductive BufferId where
  | buffer1
  | buffer2
deriving Repr, DecidableEq

/-- An entry in a transport queue: one of the counter buffers queued by
`createChannel`, or a user payload posted later. -/
inductive ChanMsg (α : Type) where
  | buf (b : BufferId)
  | user (v : α)
deriving Repr, DecidableEq

/-- What `createChannel()` leaves queued for `port1` to receive: a
`postMessage` on `port2` is delivered to `port1`, and the source posts
`buffer2` then `buffer1` on `port2`. -/
def createChannelPort1Queue (α : Type) : List (ChanMsg α) :=
  [ChanMsg.buf BufferId.buffer2, ChanMsg.buf BufferId.buffer1]

/-- What `createChannel()` leaves queued for `port2` to receive: the source
posts `buffer1` then `buffer2` on `port1`, delivered to `port2`. -/
def createChannelPort2Queue (α : Type) : List (ChanMsg α) :=
  [ChanMsg.buf BufferId.buffer1, ChanMsg.buf BufferId.buffer2]

/-- The counter assignment the `SyncMessagePort` constructor makes from the
first two values it receives. -/
structure PortCounters (α : Type) where
  postCounter : ChanMsg α
  receiveCounter : ChanMsg α
deriving Repr, DecidableEq

/-- The `SyncMessagePort` constructor: `receiveMessageOnPort` twice; the
first received value becomes `postCounter`, the second `receiveCounter`;
`none` models the thrown configuration error when fewer than two values are
queued.  The rest of the queue is left for later receives. -/
def construct {α : Type} :
    List (ChanMsg α) → Option (PortCounters α × List (ChanMsg α))
  | b1 :: b2 :: rest => some (⟨b1, b2⟩, rest)
  | _ => none

/-- Sanity link between the two `wait` models: the quiescent outcome is the
trace outcome in which the single primitive `Atomics.wait` call (if the loop
is entered) times out and no other thread touches the buffer. -/
theorem waitQuiescent_eq_wait (s : CounterState) (t : Option Nat) :
    waitQuiescent s t =
      AtomicCounter.wait s
        (match t with
         | some _ => [(PrimWaitResult.timedOut, s)]
         | none => []) := by
  unfold waitQuiescent
  by_cases hp : s.value = 0 ∧ s.closedWord = 0 <;>
    cases t <;> simp [AtomicCounter.wait.eq_def, hp]

/-- C1 counterexample: a signaled state (value 1, open) and a closed state
(value 0, closed flag set) produce the *same* result from `wait`, in both
counter implementations — the signaled and closed outcomes are not reported
distinctly to the caller. -/
theorem C1_wait_signaled_closed_indistinct :
    AtomicCounter.wait ⟨1, 0⟩ [] = AtomicCounter.wait ⟨0, 1⟩ [] ∧
    AtomicCounter.wait ⟨1, 0⟩ [] = some true ∧
    BigInt64Counter.wait ⟨1, 0⟩ [] = BigInt64Counter.wait ⟨0, 1⟩ [] ∧
    BigInt64Counter.wait ⟨1, 0⟩ [] = some PrimWaitResult.ok := by
  decide

/-- C1 (amended): `wait(timeout)` distinguishes the timed-out outcome from
the signaled and closed outcomes, but reports signaled and closed
identically — whenever the value is nonzero or the counter is closed it
returns `true` (resp. `'ok'`), regardless of which of the two holds, and a
`false` (resp. `'timed-out'`) result arises only from a state with value 0
and the counter open. -/
theorem C1_wait_distinguishes_only_timeout :
    ∀ (s : CounterState) (env : List (PrimWaitResult × CounterState)),
    ((s.value ≠ 0 ∨ s.closedWord ≠ 0) →
      AtomicCounter.wait s env = some true ∧
      BigInt64Counter.wait s env = some PrimWaitResult.ok) ∧
    (AtomicCounter.wait s env = some false →
      s.value = 0 ∧ s.closedWord = 0) ∧
    (BigInt64Counter.wait s env = some PrimWaitResult.timedOut →
      s.value = 0 ∧ s.closedWord = 0) := by
  intro s env
  refine ⟨?_, ?_, ?_⟩
  · intro h
    have hp : ¬(s.value = 0 ∧ s.closedWord = 0) := by tauto
    constructor
    · rw [AtomicCounter.wait.eq_def]; simp [hp]
    · rw [BigInt64Counter.wait.eq_def]; simp [hp]
  · intro h
    by_cases hp : s.value = 0 ∧ s.closedWord = 0
    · exact hp
    · rw [AtomicCounter.wait.eq_def] at h; simp [hp] at h
  · intro h
    by_cases hp : s.value = 0 ∧ s.closedWord = 0
    · exact hp
    · rw [BigInt64Counter.wait.eq_def] at h; simp [hp] at h

/-- C1 witness: a closed-but-zero state already yields the success result. -/
theorem C1_wait_distinguishes_only_timeout_witness :
    AtomicCounter.wait ⟨0, 1⟩ [] = some true ∧
    BigInt64Counter.wait ⟨0, 1⟩ [] = some PrimWaitResult.ok :=
  (C1_wait_distinguishes_only_timeout ⟨0, 1⟩ []).1 (Or.inr (by decide))

/-- C5: `close` compare-and-sets the closed word from 0 to 1 and, only when
that succeeded, compare-and-sets the value from 0 to the nonzero sentinel 1
(notifying only when both succeeded); when the counter is already closed the
whole call is a no-op, so a second `close` leaves the state of the first
unchanged and performs no wake. -/
theorem C5_close_spec :
    ∀ s : CounterState,
    (s.closedWord = 0 →
      (AtomicCounter.close s).1.closedWord = 1 ∧
      (s.value = 0 →
        (AtomicCounter.close s).1.value = 1 ∧ (AtomicCounter.close s).2 = true) ∧
      (s.value ≠ 0 →
        (AtomicCounter.close s).1.value = s.value ∧
        (AtomicCounter.close s).2 = false)) ∧
    (s.closedWord ≠ 0 → AtomicCounter.close s = (s, false)) ∧
    AtomicCounter.close (AtomicCounter.close s).1 =
      ((AtomicCounter.close s).1, false) ∧
    BigInt64Counter.close s = AtomicCounter.close s := by
  intro s
  unfold AtomicCounter.close BigInt64Counter.close
  by_cases h1 : s.closedWord = 0 <;> by_cases h2 : s.value = 0 <;>
    simp [h1, h2]

/-- C5 witness: closing an open zero counter sets both words to 1 and
wakes; closing again is a silent no-op. -/
theorem C5_close_spec_witness :
    (AtomicCounter.close ⟨0, 0⟩).1.closedWord = 1 ∧
    (AtomicCounter.close ⟨0, 0⟩).1.value = 1 ∧
    (AtomicCounter.close ⟨0, 0⟩).2 = true ∧
    AtomicCounter.close (AtomicCounter.close ⟨0, 0⟩).1 =
      ((AtomicCounter.close ⟨0, 0⟩).1, false) :=
  ⟨((C5_close_spec ⟨0, 0⟩).1 rfl).1,
   (((C5_close_spec ⟨0, 0⟩).1 rfl).2.1 rfl).1,
   (((C5_close_spec ⟨0, 0⟩).1 rfl).2.1 rfl).2,
   (C5_close_spec ⟨0, 0⟩).2.2.1⟩

/-- C6: `increment` adds 1 to the value (in wrapping signed 64-bit
arithmetic, hence exactly 1 on the non-overflowing range), leaves the closed
word alone, and issues the single-waiter wake (`Atomics.notify(..., 1)`)
exactly when the pre-increment value was 0. -/
theorem C6_increment_spec :
    ∀ s : CounterState,
    (AtomicCounter.increment s).1.value = wrap64 (s.value + 1) ∧
    (AtomicCounter.increment s).1.closedWord = s.closedWord ∧
    ((AtomicCounter.increment s).2 = true ↔ s.value = 0) ∧
    (-(2 ^ 63) ≤ s.value → s.value < 2 ^ 63 - 1 →
      (AtomicCounter.increment s).1.value = s.value + 1) := by
  intro s
  refine ⟨rfl, rfl, ?_, ?_⟩
  · simp [AtomicCounter.increment]
  · intro h1 h2
    simp only [AtomicCounter.increment]
    exact wrap64_eq_self (by omega) (by omega)

/-- C6 witness: incrementing 0 gives 1 and wakes; incrementing 5 gives 6
and does not wake. -/
theorem C6_increment_spec_witness :
    (AtomicCounter.increment ⟨5, 3⟩).1.value = 5 + 1 ∧
    ((AtomicCounter.increment ⟨5, 3⟩).2 = true ↔ (5 : Int) = 0) :=
  ⟨(C6_increment_spec ⟨5, 3⟩).2.2.2 (by norm_num) (by norm_num),
   (C6_increment_spec ⟨5, 3⟩).2.2.1⟩

/-- The operations that touch a counter's buffer (`wait` only reads it, so
its effect on the two words is the identity). -/
inductive CounterOp where
  | increment
  | decrement
  | close
  | wait
deriving Repr, DecidableEq

/-- The effect of one counter operation on the two shared words. -/
def stepOp : CounterOp → CounterState → CounterState
  | CounterOp.increment, s => (AtomicCounter.increment s).1
  | CounterOp.decrement, s => AtomicCounter.decrement s
  | CounterOp.close, s => (AtomicCounter.close s).1
  | CounterOp.wait, s => s

/-- Run a sequence of counter operations from a starting state. -/
def runOps (ops : List CounterOp) (s : CounterState) : CounterState :=
  ops.foldl (fun s op => stepOp op s) s

/-- C9: the closed word is monotone — every state reachable by any sequence
of counter operations from a closed state is still closed. -/
theorem C9_closed_monotone :
    ∀ (ops : List CounterOp) (s : CounterState),
    s.closedWord ≠ 0 → (runOps ops s).closedWord ≠ 0 := by
  intro ops
  induction ops with
  | nil => intro s h; exact h
  | cons op rest ih =>
    intro s h
    have hstep : (stepOp op s).closedWord ≠ 0 := by
      cases op <;>
        simp [stepOp, AtomicCounter.increment, AtomicCounter.decrement,
          AtomicCounter.close, h]
    exact ih _ hstep

/-- C9 witness: a concrete operation sequence from a closed state. -/
theorem C9_closed_monotone_witness :
    (runOps
      [CounterOp.increment, CounterOp.decrement, CounterOp.wait,
        CounterOp.close] ⟨0, 1⟩).closedWord ≠ 0 :=
  C9_closed_monotone _ ⟨0, 1⟩ (by decide)

/-- C10: the two counter implementations are equivalent — `increment`,
`decrement` and `close` perform identical state updates, and for every state
and environment trace `AtomicCounter.wait` returns `true` exactly where
`BigInt64Counter.wait` returns a result other than `'timed-out'`. -/
theorem C10_counters_equivalent :
    (∀ s : CounterState, BigInt64Counter.increment s = AtomicCounter.increment s) ∧
    (∀ s : CounterState, BigInt64Counter.decrement s = AtomicCounter.decrement s) ∧
    (∀ s : CounterState, BigInt64Counter.close s = AtomicCounter.close s) ∧
    (∀ (s : CounterState) (env : List (PrimWaitResult × CounterState)),
      AtomicCounter.wait s env =
        (BigInt64Counter.wait s env).map
          (fun r => r != PrimWaitResult.timedOut)) := by
  refine ⟨fun s => rfl, fun s => rfl, fun s => rfl, ?_⟩
  intro s env
  induction env generalizing s with
  | nil =>
    rw [AtomicCounter.wait.eq_def, BigInt64Counter.wait.eq_def]
    by_cases hp : s.value = 0 ∧ s.closedWord = 0 <;> simp [hp]
  | cons p rest ih =>
    rw [AtomicCounter.wait.eq_def, BigInt64Counter.wait.eq_def]
    by_cases hp : s.value = 0 ∧ s.closedWord = 0
    · obtain ⟨r, s'⟩ := p
      cases r <;> simp [hp, ih]
    · simp [hp]

/-- C2: when the wait on the incoming counter times out, `receiveMessage`
returns `options.timeoutValue` if the key was supplied and otherwise throws
`TimeoutException`; when the wait succeeds with nothing to pull it takes the
closed path (`closedValue` / channel-closed error); the timeout branch runs
before any closed-channel handling, so a timed-out call never produces a
closed outcome; and the `TypeError` latent in `'timeoutValue' in options!`
is unreachable (an absent `options` means an absent timeout, and the wait
then never times out). -/
theorem C2_receiveMessage_timeout_precedence :
    ∀ (α : Type) (s : PortState α) (o : ReceiveMessageOptions α),
    (waitQuiescent s.receiveCounter o.timeout = some false →
      receiveMessage s (some o) =
        some ((match o.timeoutValue with
               | some v => ReceiveOutcome.timeoutValue v
               | none => ReceiveOutcome.timeoutException), s)) ∧
    (waitQuiescent s.receiveCounter o.timeout = some true → s.queue = [] →
      receiveMessage s (some o) = some (closedOutcome (some o), s)) ∧
    (waitQuiescent s.receiveCounter o.timeout = some false →
      ∀ (out : ReceiveOutcome α) (s' : PortState α),
        receiveMessage s (some o) = some (out, s') →
        out ≠ ReceiveOutcome.closedError ∧
        ∀ v, out ≠ ReceiveOutcome.closedValue v) ∧
    (∀ (options : Option (ReceiveMessageOptions α)) (out : ReceiveOutcome α)
        (s' : PortState α),
      receiveMessage s options = some (out, s') →
      out ≠ ReceiveOutcome.typeError) := by
  intro α s o
  refine ⟨?_, ?_, ?_, ?_⟩
  · intro hw
    cases hv : o.timeoutValue <;> simp [receiveMessage, hw, hv]
  · intro hw hq
    cases hc : o.closedValue <;>
      simp [receiveMessage, closedOutcome, hw, hq, hc]
  · intro hw out s' hrec
    cases hv : o.timeoutValue <;> simp [receiveMessage, hw, hv] at hrec <;>
      obtain ⟨h1, -⟩ := hrec <;> subst h1 <;> simp
  · intro options out s' hrec
    cases options with
    | none =>
      by_cases hp :
          s.receiveCounter.value = 0 ∧ s.receiveCounter.closedWord = 0
      · simp [receiveMessage, waitQuiescent, hp] at hrec
      · cases hq : s.queue <;>
          simp [receiveMessage, waitQuiescent, hp, hq] at hrec <;>
          obtain ⟨h1, -⟩ := hrec <;> subst h1 <;> simp
    | some o' =>
      cases hw : waitQuiescent s.receiveCounter o'.timeout with
      | none => simp [receiveMessage, hw] at hrec
      | some b =>
        cases b with
        | false =>
          cases hv : o'.timeoutValue <;>
            simp [receiveMessage, hw, hv] at hrec <;>
            obtain ⟨h1, -⟩ := hrec <;> subst h1 <;> simp
        | true =>
          cases hq : s.queue with
          | nil =>
            cases hc : o'.closedValue <;>
              simp [receiveMessage, hw, hq, hc] at hrec <;>
              obtain ⟨h1, -⟩ := hrec <;> subst h1 <;> simp
          | cons m rest =>
            simp [receiveMessage, hw, hq] at hrec
            obtain ⟨h1, -⟩ := hrec
            subst h1
            simp

/-- C2 witness: a zero, open counter with a 5 ms timeout and `timeoutValue`
7 returns the timeout value, not a closed outcome. -/
theorem C2_receiveMessage_timeout_precedence_witness :
    receiveMessage (⟨⟨0, 0⟩, []⟩ : PortState Nat) (some ⟨some 5, some 7, none⟩) =
      some (ReceiveOutcome.timeoutValue 7, ⟨⟨0, 0⟩, []⟩) := by
  have h :=
    (C2_receiveMessage_timeout_precedence Nat ⟨⟨0, 0⟩, []⟩
      ⟨some 5, some 7, none⟩).1 (by decide)
  exact h

/-- C3: a `receiveMessage` call whose wait succeeds because the counter
value is nonzero, but whose pull finds the transport empty, takes the
closed/drained outcome even though the closed flag is still 0 — the code
never checks the flag on this path. -/
theorem C3_signaled_empty_is_closed_path :
    ∀ (α : Type) (s : PortState α)
      (options : Option (ReceiveMessageOptions α)),
    s.queue = [] → s.receiveCounter.value ≠ 0 →
    s.receiveCounter.closedWord = 0 →
    receiveMessage s options = some (closedOutcome options, s) := by
  intro α s options hq hv _
  have hw : waitQuiescent s.receiveCounter
      (options.bind fun o => o.timeout) = some true := by
    unfold waitQuiescent
    simp [hv]
  unfold receiveMessage closedOutcome
  rw [hw, hq]
  cases options.bind (fun o => o.closedValue) <;> rfl

/-- C3 witness: counter value 1, flag open, empty queue, no options — the
call throws the channel-closed error. -/
theorem C3_signaled_empty_is_closed_path_witness :
    receiveMessage (⟨⟨1, 0⟩, []⟩ : PortState Nat) none =
      some (ReceiveOutcome.closedError, ⟨⟨1, 0⟩, []⟩) := by
  have h := C3_signaled_empty_is_closed_path Nat ⟨⟨1, 0⟩, []⟩ none rfl
    (by decide) rfl
  exact h

/-- C4: `createChannel` leaves the two counter buffers queued ahead of any
user payload, `buffer2` then `buffer1` on `port1` and `buffer1` then
`buffer2` on `port2` (the spec's abstract labels C1, C2 name the same pair
the other way around: C1 = `buffer2`, C2 = `buffer1`); the constructor on
each side deterministically takes its first received value as `postCounter`
and its second as `receiveCounter`, leaving the user payloads behind, and
the crossing holds: each side's `postCounter` is the other side's
`receiveCounter`, and the two counters of one port are distinct buffers. -/
theorem C4_createChannel_crossing :
    ∀ (α : Type) (extra1 extra2 : List (ChanMsg α)),
    construct (createChannelPort1Queue α ++ extra1) =
      some (⟨ChanMsg.buf BufferId.buffer2, ChanMsg.buf BufferId.buffer1⟩,
        extra1) ∧
    construct (createChannelPort2Queue α ++ extra2) =
      some (⟨ChanMsg.buf BufferId.buffer1, ChanMsg.buf BufferId.buffer2⟩,
        extra2) ∧
    (∀ (c1 c2 : PortCounters α) (r1 r2 : List (ChanMsg α)),
      construct (createChannelPort1Queue α ++ extra1) = some (c1, r1) →
      construct (createChannelPort2Queue α ++ extra2) = some (c2, r2) →
      c1.postCounter = c2.receiveCounter ∧
      c1.receiveCounter = c2.postCounter ∧
      c1.postCounter ≠ c1.receiveCounter) := by
  intro α extra1 extra2
  refine ⟨rfl, rfl, ?_⟩
  intro c1 c2 r1 r2 h1 h2
  simp [construct, createChannelPort1Queue] at h1
  simp [construct, createChannelPort2Queue] at h2
  obtain ⟨hc1, -⟩ := h1
  obtain ⟨hc2, -⟩ := h2
  subst hc1
  subst hc2
  refine ⟨rfl, rfl, by simp⟩

/-- C4 witness: the crossing at the concrete handshake queues with no user
payload yet. -/
theorem C4_createChannel_crossing_witness :
    (⟨ChanMsg.buf BufferId.buffer2, ChanMsg.buf BufferId.buffer1⟩ :
        PortCounters Nat).postCounter =
      (⟨ChanMsg.buf BufferId.buffer1, ChanMsg.buf BufferId.buffer2⟩ :
        PortCounters Nat).receiveCounter ∧
    (⟨ChanMsg.buf BufferId.buffer2, ChanMsg.buf BufferId.buffer1⟩ :
        PortCounters Nat).receiveCounter =
      (⟨ChanMsg.buf BufferId.buffer1, ChanMsg.buf BufferId.buffer2⟩ :
        PortCounters Nat).postCounter ∧
    (⟨ChanMsg.buf BufferId.buffer2, ChanMsg.buf BufferId.buffer1⟩ :
        PortCounters Nat).postCounter ≠
      (⟨ChanMsg.buf BufferId.buffer2, ChanMsg.buf BufferId.buffer1⟩ :
        PortCounters Nat).receiveCounter :=
  (C4_createChannel_crossing Nat [] []).2.2
    ⟨ChanMsg.buf BufferId.buffer2, ChanMsg.buf BufferId.buffer1⟩
    ⟨ChanMsg.buf BufferId.buffer1, ChanMsg.buf BufferId.buffer2⟩
    [] [] rfl rfl

/-- C7: `receiveMessageIfAvailable` with a queued payload returns it inside
the `{message}` wrapper and decrements the incoming counter by exactly one
(after the successful pull, provided the no-timeout wait terminates), and
with an empty queue returns the absent marker with the counter words and
queue untouched, whatever the closed state; `decrement` never touches the
closed word, and subtracts exactly 1 on the non-underflowing 64-bit
range. -/
theorem C7_receiveMessageIfAvailable_spec :
    ∀ (α : Type) (s : PortState α),
    (s.queue = [] → receiveMessageIfAvailable s = some (none, s)) ∧
    (∀ (m : α) (rest : List α), s.queue = m :: rest →
      (s.receiveCounter.value ≠ 0 ∨ s.receiveCounter.closedWord ≠ 0) →
      receiveMessageIfAvailable s =
        some (some ⟨m⟩,
          { receiveCounter := AtomicCounter.decrement s.receiveCounter,
            queue := rest })) ∧
    (AtomicCounter.decrement s.receiveCounter).closedWord =
      s.receiveCounter.closedWord ∧
    (-(2 ^ 63) < s.receiveCounter.value → s.receiveCounter.value < 2 ^ 63 →
      (AtomicCounter.decrement s.receiveCounter).value =
        s.receiveCounter.value - 1) := by
  intro α s
  refine ⟨?_, ?_, rfl, ?_⟩
  · intro hq
    simp [receiveMessageIfAvailable, hq]
  · intro m rest hq hwait
    have hp : ¬(s.receiveCounter.value = 0 ∧
        s.receiveCounter.closedWord = 0) := by tauto
    simp [receiveMessageIfAvailable, hq, waitQuiescent, hp]
  · intro h1 h2
    simp only [AtomicCounter.decrement]
    exact wrap64_eq_self (by omega) (by omega)

/-- C7 witness: pulling from queue `[4, 9]` with counter value 2 returns
wrapped 4 and leaves value 1, queue `[9]`; an empty queue on a closed
counter returns the absent marker unchanged. -/
theorem C7_receiveMessageIfAvailable_spec_witness :
    receiveMessageIfAvailable (⟨⟨2, 0⟩, [4, 9]⟩ : PortState Nat) =
      some (some ⟨4⟩, ⟨AtomicCounter.decrement ⟨2, 0⟩, [9]⟩) ∧
    (AtomicCounter.decrement (⟨⟨2, 0⟩, [4, 9]⟩ :
      PortState Nat).receiveCounter).value = 2 - 1 ∧
    receiveMessageIfAvailable (⟨⟨0, 1⟩, []⟩ : PortState Nat) =
      some (none, ⟨⟨0, 1⟩, []⟩) :=
  ⟨(C7_receiveMessageIfAvailable_spec Nat ⟨⟨2, 0⟩, [4, 9]⟩).2.1 4 [9] rfl
      (Or.inl (by decide)),
   (C7_receiveMessageIfAvailable_spec Nat ⟨⟨2, 0⟩, [4, 9]⟩).2.2.2
      (by norm_num) (by norm_num),
   (C7_receiveMessageIfAvailable_spec Nat ⟨⟨0, 1⟩, []⟩).1 rfl⟩

/-- Effect of posting a whole list: the queue grows by the list (FIFO) and
the counter value advances by its length (in wrapping 64-bit arithmetic),
with the closed word untouched. -/
theorem sendAll_apply (α : Type) (ms : List α) (v : Int) (q : List α) :
    sendAll ms ⟨⟨wrap64 v, 0⟩, q⟩ =
      ⟨⟨wrap64 (v + ms.length), 0⟩, q ++ ms⟩ := by
  induction ms generalizing v q with
  | nil => simp [sendAll]
  | cons m rest ih =>
    have hstep : postMessage m (⟨⟨wrap64 v, 0⟩, q⟩ : PortState α) =
        ⟨⟨wrap64 (v + 1), 0⟩, q ++ [m]⟩ := by
      simp [postMessage, AtomicCounter.increment, wrap64_add_one]
    have : sendAll (m :: rest) (⟨⟨wrap64 v, 0⟩, q⟩ : PortState α) =
        sendAll rest (postMessage m ⟨⟨wrap64 v, 0⟩, q⟩) := rfl
    rw [this, hstep, ih (v + 1) (q ++ [m])]
    have harith : v + 1 + (rest.length : Int) =
        v + ((m :: rest).length : Int) := by
      push_cast [List.length_cons]
      ring
    rw [harith]
    simp

/-- Draining a port whose incoming counter is closed yields every queued
payload in FIFO order and then the closed outcome: the closed word makes
every `wait` succeed immediately, each pull returns the queue head and
decrements, and the first empty pull takes the closed path. -/
theorem drain_closed (α : Type) (options : Option (ReceiveMessageOptions α)) :
    ∀ (q : List α) (c : CounterState), c.closedWord ≠ 0 →
    drain (q.length + 1) options ⟨c, q⟩ =
      q.map ReceiveOutcome.message ++ [closedOutcome options] := by
  intro q
  induction q with
  | nil =>
    intro c hc
    have hw : waitQuiescent c (options.bind fun o => o.timeout) =
        some true := by
      unfold waitQuiescent
      simp [hc]
    cases hv : options.bind fun o => o.closedValue <;>
      simp [drain, receiveMessage, closedOutcome, hw, hv]
  | cons m rest ih =>
    intro c hc
    have hw : waitQuiescent c (options.bind fun o => o.timeout) =
        some true := by
      unfold waitQuiescent
      simp [hc]
    have hrec : receiveMessage (⟨c, m :: rest⟩ : PortState α) options =
        some (ReceiveOutcome.message m,
          ⟨AtomicCounter.decrement c, rest⟩) := by
      simp [receiveMessage, hw]
    have hc' : (AtomicCounter.decrement c).closedWord ≠ 0 := hc
    calc drain (rest.length + 1 + 1) options ⟨c, m :: rest⟩
        = ReceiveOutcome.message m ::
            drain (rest.length + 1) options ⟨AtomicCounter.decrement c, rest⟩ := by
          rw [drain.eq_def]
          rw [hrec]
      _ = (m :: rest).map ReceiveOutcome.message ++ [closedOutcome options] := by
          rw [ih _ hc']
          simp

/-- C8: posting the payloads `ms` in order on a fresh channel leaves the
shared counter at value `ms.length` (wrapped 64-bit, closed word 0) and the
transport queue equal to `ms`; after the sender closes, a sequence of
`receiveMessage` calls on the peer — with any options — returns all of `ms`
in FIFO order and only then the closed outcome (`closedValue` if supplied,
else the channel-closed error). -/
theorem C8_send_close_drain :
    ∀ (α : Type) (ms : List α) (options : Option (ReceiveMessageOptions α)),
    sendAll ms ⟨⟨0, 0⟩, []⟩ = ⟨⟨wrap64 ms.length, 0⟩, ms⟩ ∧
    (closePort (sendAll ms ⟨⟨0, 0⟩, []⟩)).receiveCounter.closedWord = 1 ∧
    (closePort (sendAll ms ⟨⟨0, 0⟩, []⟩)).queue = ms ∧
    drain (ms.length + 1) options (closePort (sendAll ms ⟨⟨0, 0⟩, []⟩)) =
      ms.map ReceiveOutcome.message ++ [closedOutcome options] := by
  intro α ms options
  have h0 : wrap64 (0 : Int) = 0 := by unfold wrap64; omega
  have hs : sendAll ms (⟨⟨0, 0⟩, []⟩ : PortState α) =
      ⟨⟨wrap64 ms.length, 0⟩, ms⟩ := by
    have h := sendAll_apply α ms 0 []
    rw [h0] at h
    simpa using h
  have hcp : closePort (⟨⟨wrap64 (ms.length : Int), 0⟩, ms⟩ : PortState α) =
      ⟨⟨(if wrap64 (ms.length : Int) = 0 then 1 else wrap64 (ms.length : Int)),
        1⟩, ms⟩ := by
    by_cases hz : wrap64 (ms.length : Int) = 0 <;>
      simp [closePort, AtomicCounter.close, hz]
  refine ⟨hs, ?_, ?_, ?_⟩ <;> rw [hs, hcp]
  exact drain_closed α options ms _ (by norm_num)

example : AtomicCounter.wait ⟨1, 0⟩ [] = some true := by decide
example : AtomicCounter.wait ⟨0, 1⟩ [] = some true := by decide
example : AtomicCounter.wait ⟨0, 0⟩ [] = none := by decide
example : AtomicCounter.wait ⟨0, 0⟩ [(PrimWaitResult.timedOut, ⟨0, 0⟩)] = some false := by decide
example : AtomicCounter.wait ⟨0, 0⟩ [(PrimWaitResult.ok, ⟨1, 0⟩)] = some true := by decide
example : BigInt64Counter.wait ⟨0, 0⟩ [(PrimWaitResult.timedOut, ⟨0, 0⟩)] =
    some PrimWaitResult.timedOut := by decide
example : AtomicCounter.close ⟨0, 0⟩ = (⟨1, 1⟩, true) := by decide
example : AtomicCounter.close ⟨3, 0⟩ = (⟨3, 1⟩, false) := by decide
example : AtomicCounter.close ⟨3, 1⟩ = (⟨3, 1⟩, false) := by decide
example : AtomicCounter.increment ⟨0, 0⟩ = (⟨1, 0⟩, true) := by decide
example : AtomicCounter.increment ⟨2, 0⟩ = (⟨3, 0⟩, false) := by decide
